import Mathlib

/-!
Verification of the platformer simulation core in `src/main.cpp`
(entity/component runtime, AABB collision detection and resolution,
player controller state machine, scripted motion behaviors).

Real-valued source quantities (`float`) are modelled as exact rationals
(`ℚ`); the sinusoidal bounce behavior, which calls the transcendental
`std::sin`, is modelled over `ℝ` with `Real.sin`.
-/

/-- `BodyComponent`: position, size, velocity and previous position
(fields `x, y, width, height, velocityX, velocityY, prevX, prevY`). -/
structure Body where
  x : ℚ
  y : ℚ
  width : ℚ
  height : ℚ
  velocityX : ℚ
  velocityY : ℚ
  prevX : ℚ
  prevY : ℚ
deriving DecidableEq

/-- `BodyComponent::update`: captures the previous position, then
integrates velocity into position. -/
def bodyUpdate (dt : ℚ) (b : Body) : Body :=
  { b with
    prevX := b.x
    prevY := b.y
    x := b.x + b.velocityX * dt
    y := b.y + b.velocityY * dt }

/-- `BodyComponent::getVelocityX`: per-frame displacement `x - prevX`. -/
def getVelocityX (b : Body) : ℚ := b.x - b.prevX

/-- `CollisionSystem::checkCollision`: strict AABB overlap test. -/
def checkCollision (a b : Body) : Bool :=
  decide (a.x < b.x + b.width ∧ a.x + a.width > b.x ∧
          a.y < b.y + b.height ∧ a.y + a.height > b.y)

/-- Penetration depth from the left in `resolvePlatformCollision`. -/
def overlapLeft (player platform : Body) : ℚ :=
  (player.x + player.width) - platform.x

/-- Penetration depth from the right in `resolvePlatformCollision`. -/
def overlapRight (player platform : Body) : ℚ :=
  (platform.x + platform.width) - player.x

/-- Penetration depth from the top in `resolvePlatformCollision`. -/
def overlapTop (player platform : Body) : ℚ :=
  (player.y + player.height) - platform.y

/-- Penetration depth from the bottom in `resolvePlatformCollision`. -/
def overlapBottom (player platform : Body) : ℚ :=
  (platform.y + platform.height) - player.y

/-- `minOverlapX` as computed in `resolvePlatformCollision`:
`fromLeft ? overlapLeft : overlapRight` with
`fromLeft = |overlapLeft| < |overlapRight|`. -/
def minOverlapX (player platform : Body) : ℚ :=
  if |overlapLeft player platform| < |overlapRight player platform| then
    overlapLeft player platform
  else
    overlapRight player platform

/-- `minOverlapY` as computed in `resolvePlatformCollision`:
`fromTop ? overlapTop : overlapBottom` with
`fromTop = |overlapTop| < |overlapBottom|`. -/
def minOverlapY (player platform : Body) : ℚ :=
  if |overlapTop player platform| < |overlapBottom player platform| then
    overlapTop player platform
  else
    overlapBottom player platform

/-- `CollisionSystem::resolvePlatformCollision`: least-overlap resolution.
Returns the mutated player body together with the `landedOnTop` flag.
The `0.1f` rider-carry dead zone is modelled as `1/10`. -/
def resolvePlatformCollision (player platform : Body)
    (platformVelocityX : ℚ) : Body × Bool :=
  if |minOverlapX player platform| < |minOverlapY player platform| then
    -- Horizontal collision
    (if |overlapLeft player platform| < |overlapRight player platform| then
       { player with x := platform.x - player.width, velocityX := 0 }
     else
       { player with x := platform.x + platform.width, velocityX := 0 },
     false)
  else
    -- Vertical collision
    if |overlapTop player platform| < |overlapBottom player platform| then
      let p1 := { player with y := platform.y - player.height, velocityY := 0 }
      (if (1 : ℚ)/10 < |platformVelocityX| then
         { p1 with x := p1.x + platformVelocityX }
       else p1,
       true)
    else
      ({ player with y := platform.y + platform.height, velocityY := 0 },
       false)

/-- Input snapshot consumed by `ControllerComponent::update`: left/right
held (A/LEFT, D/RIGHT) and the edge-triggered jump (SPACE/UP). -/
structure Input where
  leftHeld : Bool
  rightHeld : Bool
  jumpJustPressed : Bool
deriving DecidableEq

/-- The all-keys-up input snapshot. -/
def inputNeutral : Input := ⟨false, false, false⟩

/-- `ControllerComponent` constants `speed`, `jumpForce`, `gravity`,
`deathHeight`. -/
def ctrlSpeed : ℚ := 300

/-- Jump impulse magnitude of `ControllerComponent`. -/
def jumpForce : ℚ := 275

/-- Gravity acceleration of `ControllerComponent`. -/
def ctrlGravity : ℚ := 900

/-- Fall-death threshold of `ControllerComponent`. -/
def deathHeight : ℚ := 800

/-- `ControllerComponent` private state. The platform reference
`m_attachedPlatform` (a `GameObject*`) is modelled generically as an
`Option π` over an abstract reference type `π`; a `lookup : π → Option Body`
argument plays the role of `->get<BodyComponent>()`. -/
structure CtrlState (π : Type) where
  grounded : Bool
  onPlatform : Bool
  isDead : Bool
  attachedPlatform : Option π
  lastPlatformX : ℚ
deriving DecidableEq

/-- `ControllerComponent::respawn`: clears the dead flag and attachment,
resets the body to the fixed spawn point `(100, 400)` with zero velocity. -/
def respawn {π : Type} (c : CtrlState π) (b : Body) : CtrlState π × Body :=
  ({ c with isDead := false, attachedPlatform := none },
   { b with x := 100, y := 400, velocityX := 0, velocityY := 0 })

/-- `ControllerComponent::die`: raises the dead flag, clears the
attachment, and immediately calls `respawn`. -/
def die {π : Type} (c : CtrlState π) (b : Body) : CtrlState π × Body :=
  respawn { c with isDead := true, attachedPlatform := none } b

/-- Net horizontal input velocity: `velocityX` is zeroed, then overwritten
by the left check and then the right check (right wins when both held). -/
def inputVelX (inp : Input) : ℚ :=
  if inp.rightHeld then ctrlSpeed else if inp.leftHeld then -ctrlSpeed else 0

/-- Whether the jump branch fires this frame:
`isKeyJustPressed(jump) && (m_grounded || m_onPlatform)`. -/
def jumpFires {π : Type} (inp : Input) (c : CtrlState π) : Bool :=
  inp.jumpJustPressed && (c.grounded || c.onPlatform)

/-- The attachment in force for this frame's horizontal movement: the jump
branch clears `m_attachedPlatform` before the position update runs. -/
def effAttached {π : Type} (inp : Input) (c : CtrlState π) : Option π :=
  if jumpFires inp c then none else c.attachedPlatform

/-- The body of `ControllerComponent::update` after the dead-flag guard
and before the fall-death check: input-driven `velocityX`, jump on edge,
gravity accumulation, vertical integration, then horizontal update that is
EITHER the attached platform's delta OR the controller's own
`velocityX * dt`, and finally the per-frame reset of the grounded flags. -/
def controllerMove {π : Type} (lookup : π → Option Body) (inp : Input)
    (dt : ℚ) (c : CtrlState π) (b : Body) : CtrlState π × Body :=
  let b1 := { b with velocityX := inputVelX inp }
  let b2 := if jumpFires inp c then { b1 with velocityY := -jumpForce } else b1
  let c1 := if jumpFires inp c then
      { c with grounded := false, onPlatform := false, attachedPlatform := none }
    else c
  let b3 := { b2 with velocityY := b2.velocityY + ctrlGravity * dt }
  let b4 := { b3 with y := b3.y + b3.velocityY * dt }
  let b5 := match c1.attachedPlatform with
    | some p =>
      match lookup p with
      | some pb => { b4 with x := b4.x + (pb.x - c1.lastPlatformX) }
      | none => b4
    | none => { b4 with x := b4.x + b4.velocityX * dt }
  let c2 := match c1.attachedPlatform with
    | some p =>
      match lookup p with
      | some pb => { c1 with lastPlatformX := pb.x }
      | none => c1
    | none => c1
  let c3 := { c2 with grounded := false, onPlatform := false }
  (c3, b5)

/-- `ControllerComponent::update`: no-op when dead; otherwise runs the
movement logic and then the fall-death check (`y > deathHeight` triggers
`respawn()` directly). -/
def controllerUpdate {π : Type} (lookup : π → Option Body) (inp : Input)
    (dt : ℚ) (c : CtrlState π) (b : Body) : CtrlState π × Body :=
  if c.isDead then (c, b)
  else
    let s := controllerMove lookup inp dt c b
    if s.2.y > deathHeight then respawn s.1 s.2 else s

/-- `ControllerComponent::setOnPlatform`: sets the flag; on attach it
records the platform reference and captures the platform's current x as
the carry baseline; on detach it clears the reference. -/
def setOnPlatform {π : Type} (c : CtrlState π) (onPlat : Bool)
    (platform : Option (π × Body)) : CtrlState π :=
  match onPlat, platform with
  | true, some (p, pb) =>
    { c with onPlatform := true, attachedPlatform := some p,
             lastPlatformX := pb.x }
  | true, none => { c with onPlatform := true }
  | false, _ => { c with onPlatform := false, attachedPlatform := none }

/-- `PatrolBehaviorComponent::update` (bounds and speed are the
constructor parameters, `movingRight` the mutable flag). -/
def patrolUpdate (leftBound rightBound speed dt : ℚ) (movingRight : Bool)
    (b : Body) : Bool × Body :=
  let b1 := { b with prevX := b.x }
  let b2 := { b1 with x := b1.x + (if movingRight then speed * dt else -(speed * dt)) }
  let m1 := if b2.x ≥ rightBound - b2.width then false else movingRight
  let m2 := if b2.x ≤ leftBound then true else m1
  (m2, { b2 with velocityX := (b2.x - b2.prevX) / dt })

/-- `n` consecutive patrol updates with a fixed time step. -/
def patrolIter (leftBound rightBound speed dt : ℚ) (n : ℕ)
    (st : Bool × Body) : Bool × Body :=
  (fun s => patrolUpdate leftBound rightBound speed dt s.1 s.2)^[n] st

/-- `HorizontalMoveBehaviorComponent::update` (platform shuttle): same
reversal policy as patrol. -/
def horizontalMoveUpdate (leftBound rightBound speed dt : ℚ)
    (movingRight : Bool) (b : Body) : Bool × Body :=
  let b1 := { b with prevX := b.x }
  let b2 := { b1 with x := b1.x + (if movingRight then speed * dt else -(speed * dt)) }
  let m1 := if b2.x ≥ rightBound - b2.width then false else movingRight
  let m2 := if b2.x ≤ leftBound then true else m1
  (m2, { b2 with velocityX := (b2.x - b2.prevX) / dt })

/-- State touched by `BounceBehaviorComponent::update`: the body fields it
reads/writes (`y`, `prevY`, `velocityY`) plus its own `baseY` and `time`.
Modelled over `ℝ` because the source calls `std::sin`. -/
structure BounceState where
  y : ℝ
  prevY : ℝ
  velocityY : ℝ
  baseY : ℝ
  time : ℝ

/-- `BounceBehaviorComponent::update`: the zero-sentinel baseline capture
(`if (baseY == 0) baseY = body->y`), time accumulation, and the
sinusoidal position write `y = baseY + amplitude * sin(frequency * time)`. -/
noncomputable def bounceUpdate (amplitude frequency dt : ℝ)
    (s : BounceState) : BounceState :=
  let baseY := if s.baseY = 0 then s.y else s.baseY
  let time := s.time + dt
  let prevY := s.y
  let y := baseY + amplitude * Real.sin (frequency * time)
  { y := y, prevY := prevY, velocityY := (y - prevY) / dt,
    baseY := baseY, time := time }

/-- A `GameObject` of the simulation core, as assembled by
`XMLParser::createGameObject`:
a player (`BodyComponent` then `ControllerComponent`; the intervening
`SpriteComponent::update` only advances animation timers and never touches
the body), a static platform (`BodyComponent` + `SolidComponent`), or a
moving platform (`BodyComponent` + `SolidComponent` +
`HorizontalMoveBehaviorComponent`, components updated in insertion
order). The player's `m_attachedPlatform` pointer is modelled as an index
into the object list. Enemies and backgrounds are not part of the worlds
modelled here. -/
inductive GObj where
  | player (c : CtrlState ℕ) (b : Body)
  | platform (b : Body)
  | movingPlatform (movingRight : Bool) (leftBound rightBound speed : ℚ) (b : Body)
deriving DecidableEq

/-- The `BodyComponent` of an object. -/
def bodyOf : GObj → Body
  | .player _ b => b
  | .platform b => b
  | .movingPlatform _ _ _ _ b => b

/-- `GameObject*`-to-body lookup used by the controller
(`m_attachedPlatform->get<BodyComponent>()`). -/
def lookupIdx (objs : List GObj) (j : ℕ) : Option Body :=
  (objs.get? j).map bodyOf

/-- `GameObject::update`: runs the object's components in insertion
order. `objs` is the current state of the whole object list, read through
when the player's controller follows its attached platform. -/
def objUpdate (objs : List GObj) (inp : Input) (dt : ℚ) : GObj → GObj
  | .player c b =>
    let b1 := bodyUpdate dt b
    let s := controllerUpdate (lookupIdx objs) inp dt c b1
    .player s.1 s.2
  | .platform b => .platform (bodyUpdate dt b)
  | .movingPlatform m l r sp b =>
    let b1 := bodyUpdate dt b
    let s := horizontalMoveUpdate l r sp dt m b1
    .movingPlatform s.1 l r sp s.2

/-- One step of the entity-update loop of `Game::update`: object `i` is
updated in place, its update reading the current state of the whole list. -/
def updateStep (inp : Input) (dt : ℚ) (objs : List GObj) (i : ℕ) :
    List GObj :=
  match objs.get? i with
  | some o => objs.set i (objUpdate objs inp dt o)
  | none => objs

/-- Phase 1 of `Game::update`: objects are updated in list order,
sequentially and in place, each update seeing the effects of the earlier
ones. -/
def updateEntities (inp : Input) (dt : ℚ) (objs : List GObj) : List GObj :=
  (List.range objs.length).foldl (updateStep inp dt) objs

/-- Whether an object carries a `ControllerComponent`. -/
def isPlayerObj : GObj → Bool
  | .player _ _ => true
  | _ => false

/-- `Game::findPlayer`: first object with a `ControllerComponent`. -/
def findPlayerIdx (objs : List GObj) : Option ℕ :=
  objs.findIdx? isPlayerObj

/-- The body of the first player object, when present. -/
def playerBodyOf (objs : List GObj) : Option Body :=
  (findPlayerIdx objs).bind fun i => (objs.get? i).map bodyOf

/-- The `SolidComponent`-tagged body of an object, if any. -/
def solidBodyOf : GObj → Option Body
  | .player _ _ => none
  | .platform b => some b
  | .movingPlatform _ _ _ _ b => some b

/-- One iteration of the collision loop in `Game::checkCollisions`:
object `i` is skipped when it is the player; a solid object that overlaps
the player is resolved with `resolvePlatformCollision` (fed the
platform's per-frame displacement `getVelocityX`), and a landed-on-top
result attaches the player to that platform. -/
def collideStep (objs : List GObj) (pIdx : ℕ) (st : CtrlState ℕ × Body)
    (i : ℕ) : CtrlState ℕ × Body :=
  if i = pIdx then st
  else
    match (objs.get? i).bind solidBodyOf with
    | some pb =>
      if checkCollision st.2 pb then
        let s := resolvePlatformCollision st.2 pb (getVelocityX pb)
        if s.2 then
          (setOnPlatform st.1 true (some (i, pb)), s.1)
        else
          (st.1, s.1)
      else st
    | none => st

/-- Phase 3 of `Game::update` (`Game::checkCollisions`): skipped when no
player exists or the player is dead; otherwise the platform status is
reset and every other object is tested against the player in list order,
mutating only the player's body and controller state. -/
def checkCollisionsPhase (objs : List GObj) : List GObj :=
  match findPlayerIdx objs with
  | none => objs
  | some pIdx =>
    match objs.get? pIdx with
    | some (.player c b) =>
      if c.isDead then objs
      else
        let c0 := setOnPlatform c false none
        let st := (List.range objs.length).foldl (collideStep objs pIdx) (c0, b)
        objs.set pIdx (.player st.1 st.2)
    | _ => objs

/-- Phase 2 of `Game::update` (`Game::updateCamera`): recenter the main
view on the middle of the player's body; skipped when no player exists. -/
def updateCamera (objs : List GObj) (view : ℚ × ℚ) : ℚ × ℚ :=
  match findPlayerIdx objs with
  | none => view
  | some pIdx =>
    match objs.get? pIdx with
    | some (.player _ b) => (b.x + b.width / 2, b.y + b.height / 2)
    | _ => view

/-- The world state advanced by `Game::update`: the object list and the
main view's center. -/
structure GameWorld where
  objs : List GObj
  view : ℚ × ℚ
deriving DecidableEq

/-- `Game::update`: entity updates, then camera recentering, then
collision detection and resolution — in exactly that order. -/
def gameUpdate (inp : Input) (dt : ℚ) (w : GameWorld) : GameWorld :=
  let objs1 := updateEntities inp dt w.objs
  let view1 := updateCamera objs1 w.view
  let objs2 := checkCollisionsPhase objs1
  { objs := objs2, view := view1 }

/-- One `GameObject::update` of the player entity as built by
`XMLParser::createGameObject` for `type == "player"`: the
`BodyComponent` is added (and hence updated) before the
`ControllerComponent`; the `SpriteComponent` between them only advances
animation state and never touches the body. -/
def playerObjectUpdate {π : Type} (lookup : π → Option Body) (inp : Input)
    (dt : ℚ) (c : CtrlState π) (b : Body) : CtrlState π × Body :=
  controllerUpdate lookup inp dt c (bodyUpdate dt b)

/-- Rectangles of the C2 scenario: `scenarioPlayer` penetrates
`scenarioPlatform` by 3 horizontally and 10 vertically. -/
def scenarioPlayer : Body := ⟨0, 0, 10, 30, 5, 7, 0, 0⟩

/-- The platform rectangle of the C2 scenario. -/
def scenarioPlatform : Body := ⟨7, 20, 50, 50, 0, 0, 0, 0⟩

/-- Claim C1: resolution eliminates penetration on every branch — if the
mover and obstacle overlap before `resolvePlatformCollision`, they do not
overlap afterwards. -/
theorem resolve_eliminates_overlap (p q : Body) (pvx : ℚ)
    (hcol : checkCollision p q = true) :
    checkCollision (resolvePlatformCollision p q pvx).1 q = false := by
  unfold resolvePlatformCollision
  split_ifs <;> simp [checkCollision]

/-- Witness for C1 at a concrete overlapping pair. -/
theorem resolve_eliminates_overlap_witness :
    checkCollision ⟨0, 9, 10, 10, 0, 90, 0, 0⟩ ⟨0, 14, 100, 10, 0, 0, 0, 14⟩ = true ∧
    checkCollision
      (resolvePlatformCollision ⟨0, 9, 10, 10, 0, 90, 0, 0⟩
        ⟨0, 14, 100, 10, 0, 0, 0, 14⟩ 0).1
      ⟨0, 14, 100, 10, 0, 0, 0, 14⟩ = false :=
  ⟨by norm_num [checkCollision],
   resolve_eliminates_overlap _ _ 0 (by norm_num [checkCollision])⟩

/-- Claim C2: `resolvePlatformCollision` resolves along the axis of
minimum absolute penetration — horizontally exactly when
`|minOverlapX| < |minOverlapY|` (position snapped on x, `velocityX`
zeroed, `y` and `velocityY` untouched, landed-on-top not signalled), and
vertically when `|minOverlapY| ≤ |minOverlapX|`, so exactly-equal
overlaps resolve vertically; in the scenario with horizontal penetration
3 and vertical penetration 10 the horizontal axis is picked, `velocityX`
is zeroed and `velocityY` is left unchanged. -/
theorem resolve_least_overlap_axis :
    (∀ (p q : Body) (pvx : ℚ), |minOverlapX p q| < |minOverlapY p q| →
      (resolvePlatformCollision p q pvx).1.y = p.y ∧
      (resolvePlatformCollision p q pvx).1.velocityY = p.velocityY ∧
      (resolvePlatformCollision p q pvx).1.velocityX = 0 ∧
      (resolvePlatformCollision p q pvx).2 = false ∧
      ((resolvePlatformCollision p q pvx).1.x = q.x - p.width ∨
       (resolvePlatformCollision p q pvx).1.x = q.x + q.width)) ∧
    (∀ (p q : Body) (pvx : ℚ), |minOverlapY p q| ≤ |minOverlapX p q| →
      (resolvePlatformCollision p q pvx).1.velocityY = 0 ∧
      ((resolvePlatformCollision p q pvx).1.y = q.y - p.height ∨
       (resolvePlatformCollision p q pvx).1.y = q.y + q.height)) ∧
    (minOverlapX scenarioPlayer scenarioPlatform = 3 ∧
     minOverlapY scenarioPlayer scenarioPlatform = 10 ∧
     (resolvePlatformCollision scenarioPlayer scenarioPlatform 0).1.x = -3 ∧
     (resolvePlatformCollision scenarioPlayer scenarioPlatform 0).1.velocityX = 0 ∧
     (resolvePlatformCollision scenarioPlayer scenarioPlatform 0).1.y = 0 ∧
     (resolvePlatformCollision scenarioPlayer scenarioPlatform 0).1.velocityY = 7) := by
  refine ⟨?_, ?_, ?_⟩
  · intro p q pvx h
    unfold resolvePlatformCollision
    rw [if_pos h]
    split_ifs <;> simp
  · intro p q pvx h
    unfold resolvePlatformCollision
    rw [if_neg (not_lt.mpr h)]
    split_ifs <;> simp
  · norm_num [scenarioPlayer, scenarioPlatform, resolvePlatformCollision,
      minOverlapX, minOverlapY, overlapLeft, overlapRight, overlapTop,
      overlapBottom]

/-- Witness for C2's quantified horizontal part at the scenario
rectangles. -/
theorem resolve_least_overlap_axis_witness :
    |minOverlapX scenarioPlayer scenarioPlatform| <
      |minOverlapY scenarioPlayer scenarioPlatform| ∧
    (resolvePlatformCollision scenarioPlayer scenarioPlatform 0).1.velocityX = 0 ∧
    (resolvePlatformCollision scenarioPlayer scenarioPlatform 0).1.velocityY =
      scenarioPlayer.velocityY :=
  have h : |minOverlapX scenarioPlayer scenarioPlatform| <
      |minOverlapY scenarioPlayer scenarioPlatform| := by
    norm_num [scenarioPlayer, scenarioPlatform, minOverlapX, minOverlapY,
      overlapLeft, overlapRight, overlapTop, overlapBottom]
  ⟨h, (resolve_least_overlap_axis.1 scenarioPlayer scenarioPlatform 0 h).2.2.1,
   (resolve_least_overlap_axis.1 scenarioPlayer scenarioPlatform 0 h).2.1⟩

/-- Claim C3: vertical resolution from above (landing) zeroes the mover's
vertical velocity, snaps it onto the obstacle's top edge, signals
landed-on-top, and shifts the mover's x by the obstacle's per-frame
horizontal displacement exactly when that displacement's absolute value
exceeds the `0.1` dead zone. -/
theorem resolve_landing_top (p q : Body) (pvx : ℚ)
    (hv : |minOverlapY p q| ≤ |minOverlapX p q|)
    (ht : |overlapTop p q| < |overlapBottom p q|) :
    (resolvePlatformCollision p q pvx).2 = true ∧
    (resolvePlatformCollision p q pvx).1.velocityY = 0 ∧
    (resolvePlatformCollision p q pvx).1.y = q.y - p.height ∧
    (resolvePlatformCollision p q pvx).1.x =
      p.x + (if (1 : ℚ)/10 < |pvx| then pvx else 0) := by
  unfold resolvePlatformCollision
  rw [if_neg (not_lt.mpr hv), if_pos ht]
  split_ifs <;> simp

/-- Witness for C3 at a concrete landing with a moving obstacle
(displacement 3, above the dead zone: the mover is carried). -/
theorem resolve_landing_top_witness :
    (|minOverlapY ⟨0, 9, 10, 10, 0, 90, 0, 0⟩ ⟨0, 14, 100, 10, 0, 0, 0, 14⟩| ≤
       |minOverlapX ⟨0, 9, 10, 10, 0, 90, 0, 0⟩ ⟨0, 14, 100, 10, 0, 0, 0, 14⟩| ∧
     |overlapTop ⟨0, 9, 10, 10, 0, 90, 0, 0⟩ ⟨0, 14, 100, 10, 0, 0, 0, 14⟩| <
       |overlapBottom ⟨0, 9, 10, 10, 0, 90, 0, 0⟩ ⟨0, 14, 100, 10, 0, 0, 0, 14⟩|) ∧
    (resolvePlatformCollision ⟨0, 9, 10, 10, 0, 90, 0, 0⟩
       ⟨0, 14, 100, 10, 0, 0, 0, 14⟩ 3).2 = true ∧
    (resolvePlatformCollision ⟨0, 9, 10, 10, 0, 90, 0, 0⟩
       ⟨0, 14, 100, 10, 0, 0, 0, 14⟩ 3).1.x = 3 := by
  have h := resolve_landing_top ⟨0, 9, 10, 10, 0, 90, 0, 0⟩
    ⟨0, 14, 100, 10, 0, 0, 0, 14⟩ 3
    (by norm_num [minOverlapX, minOverlapY, overlapLeft, overlapRight,
      overlapTop, overlapBottom])
    (by norm_num [overlapTop, overlapBottom])
  norm_num at h
  exact ⟨⟨by norm_num [minOverlapX, minOverlapY, overlapLeft, overlapRight,
      overlapTop, overlapBottom],
    by norm_num [overlapTop, overlapBottom]⟩, h.1, h.2.2.2⟩

/-- Claim C8: `checkCollision` is true iff the rectangles strictly
intersect on both axes; it is symmetric, and rectangles merely touching
along an edge do not collide. -/
theorem checkCollision_strict_iff_symm (a b : Body) :
    (checkCollision a b = true ↔
      (a.x < b.x + b.width ∧ b.x < a.x + a.width ∧
       a.y < b.y + b.height ∧ b.y < a.y + a.height)) ∧
    checkCollision a b = checkCollision b a ∧
    (a.x + a.width = b.x → checkCollision a b = false) := by
  refine ⟨by simp [checkCollision], ?_, ?_⟩
  · simp only [checkCollision, decide_eq_decide]
    constructor
    · rintro ⟨h1, h2, h3, h4⟩; exact ⟨h2, h1, h4, h3⟩
    · rintro ⟨h1, h2, h3, h4⟩; exact ⟨h2, h1, h4, h3⟩
  · intro h
    simp [checkCollision]
    intros
    linarith

/-- Witness for C8's touching-edge part at a concrete pair. -/
theorem checkCollision_strict_iff_symm_witness :
    (0 : ℚ) + (10 : ℚ) = (10 : ℚ) ∧
    checkCollision ⟨0, 0, 10, 10, 0, 0, 0, 0⟩ ⟨10, 0, 5, 5, 0, 0, 0, 0⟩ = false :=
  ⟨by norm_num,
   (checkCollision_strict_iff_symm ⟨0, 0, 10, 10, 0, 0, 0, 0⟩
     ⟨10, 0, 5, 5, 0, 0, 0, 0⟩).2.2 (by norm_num)⟩

/-- The post-movement horizontal velocity of the controller is always the
input-driven value (neither the platform-carry branch nor the gravity and
vertical steps touch `velocityX` after the input phase). -/
theorem controllerMove_velocityX {π : Type} (lookup : π → Option Body)
    (inp : Input) (dt : ℚ) (c : CtrlState π) (b : Body) :
    (controllerMove lookup inp dt c b).2.velocityX = inputVelX inp := by
  unfold controllerMove
  cases hj : jumpFires inp c <;>
    simp [hj] <;>
    rcases h : c.attachedPlatform with _ | p <;>
    simp [h] <;>
    rcases hl : lookup p with _ | pb <;>
    simp [hl]

/-- Horizontal movement when the frame's effective attachment resolves to
a platform body: the controller applies exactly the platform's delta. -/
theorem controllerMove_x_attached {π : Type} (lookup : π → Option Body)
    (inp : Input) (dt : ℚ) (c : CtrlState π) (b : Body) (p : π) (pb : Body)
    (h1 : effAttached inp c = some p) (h2 : lookup p = some pb) :
    (controllerMove lookup inp dt c b).2.x = b.x + (pb.x - c.lastPlatformX) := by
  unfold controllerMove
  cases hj : jumpFires inp c
  · simp only [effAttached, hj, if_neg Bool.false_ne_true] at h1
    simp [hj, h1, h2]
  · simp [effAttached, hj] at h1

/-- Horizontal movement when the frame's effective attachment is empty:
the controller applies exactly its own `velocityX * dt`. -/
theorem controllerMove_x_unattached {π : Type} (lookup : π → Option Body)
    (inp : Input) (dt : ℚ) (c : CtrlState π) (b : Body)
    (h1 : effAttached inp c = none) :
    (controllerMove lookup inp dt c b).2.x = b.x + inputVelX inp * dt := by
  unfold controllerMove
  cases hj : jumpFires inp c
  · simp only [effAttached, hj, if_neg Bool.false_ne_true] at h1
    simp [hj, h1]
  · simp [hj]

/-- Vertical movement of the controller when the jump branch does not
fire: gravity accumulates into `velocityY` and is then integrated. -/
theorem controllerMove_y {π : Type} (lookup : π → Option Body)
    (inp : Input) (dt : ℚ) (c : CtrlState π) (b : Body)
    (hnj : jumpFires inp c = false) :
    (controllerMove lookup inp dt c b).2.y =
      b.y + (b.velocityY + ctrlGravity * dt) * dt ∧
    (controllerMove lookup inp dt c b).2.velocityY =
      b.velocityY + ctrlGravity * dt := by
  unfold controllerMove
  simp only [hnj]
  rcases h : c.attachedPlatform with _ | p <;>
    simp [h] <;>
    rcases hl : lookup p with _ | pb <;>
    simp [hl]

/-- Claim C4: a player at rest with respect to input and attached to a
platform whose x advanced by 10 this frame is carried exactly 10 on x
with its input-driven `velocityX` unaffected (zero); in general the
controller's horizontal position update applies either the attached
platform's delta or the player's own `velocityX * dt` — never both. -/
theorem controller_platform_carry {π : Type} (lookup : π → Option Body)
    (dt : ℚ) (c : CtrlState π) (b : Body) (p : π) (pb : Body)
    (hdead : c.isDead = false)
    (hplat : c.onPlatform = true)
    (hatt : c.attachedPlatform = some p)
    (hlk : lookup p = some pb)
    (hdx : pb.x - c.lastPlatformX = 10)
    (hsafe : ¬((controllerMove lookup inputNeutral dt c b).2.y > deathHeight)) :
    ((controllerUpdate lookup inputNeutral dt c b).2.x = b.x + 10 ∧
     (controllerUpdate lookup inputNeutral dt c b).2.velocityX = 0) ∧
    (∀ (inp : Input) (c2 : CtrlState π) (b2 : Body) (p2 : π) (pb2 : Body),
      effAttached inp c2 = some p2 → lookup p2 = some pb2 →
      (controllerMove lookup inp dt c2 b2).2.x =
        b2.x + (pb2.x - c2.lastPlatformX)) ∧
    (∀ (inp : Input) (c2 : CtrlState π) (b2 : Body),
      effAttached inp c2 = none →
      (controllerMove lookup inp dt c2 b2).2.x = b2.x + inputVelX inp * dt) := by
  have heq : controllerUpdate lookup inputNeutral dt c b =
      controllerMove lookup inputNeutral dt c b := by
    simp [controllerUpdate, hdead, hsafe]
  refine ⟨⟨?_, ?_⟩, ?_, ?_⟩
  · rw [heq, controllerMove_x_attached lookup inputNeutral dt c b p pb
      (by simp [effAttached, jumpFires, inputNeutral, hatt]) hlk, hdx]
  · rw [heq, controllerMove_velocityX]
    simp [inputVelX, inputNeutral]
  · intro inp c2 b2 p2 pb2 h1 h2
    exact controllerMove_x_attached lookup inp dt c2 b2 p2 pb2 h1 h2
  · intro inp c2 b2 h1
    exact controllerMove_x_unattached lookup inp dt c2 b2 h1

/-- Witness for C4: platform at x = 30 with carry baseline 20 (delta 10),
neutral input, `dt = 1/10`; the player's x moves from 0 to 10 and its
`velocityX` stays 0. -/
theorem controller_platform_carry_witness :
    ((⟨false, true, false, some 0, 20⟩ : CtrlState ℕ).isDead = false ∧
     (fun (_ : ℕ) => some (⟨30, 5, 40, 10, 0, 0, 0, 0⟩ : Body)) 0 =
       some ⟨30, 5, 40, 10, 0, 0, 0, 0⟩ ∧
     (30 : ℚ) - 20 = 10 ∧
     ¬((controllerMove (fun (_ : ℕ) => some (⟨30, 5, 40, 10, 0, 0, 0, 0⟩ : Body))
         inputNeutral (1/10) ⟨false, true, false, some 0, 20⟩
         ⟨0, 0, 10, 10, 0, 0, 0, 0⟩).2.y > deathHeight)) ∧
    ((controllerUpdate (fun (_ : ℕ) => some (⟨30, 5, 40, 10, 0, 0, 0, 0⟩ : Body))
        inputNeutral (1/10) ⟨false, true, false, some 0, 20⟩
        ⟨0, 0, 10, 10, 0, 0, 0, 0⟩).2.x = 10 ∧
     (controllerUpdate (fun (_ : ℕ) => some (⟨30, 5, 40, 10, 0, 0, 0, 0⟩ : Body))
        inputNeutral (1/10) ⟨false, true, false, some 0, 20⟩
        ⟨0, 0, 10, 10, 0, 0, 0, 0⟩).2.velocityX = 0) := by
  have hsafe : ¬((controllerMove
      (fun (_ : ℕ) => some (⟨30, 5, 40, 10, 0, 0, 0, 0⟩ : Body))
      inputNeutral (1/10) (⟨false, true, false, some 0, 20⟩ : CtrlState ℕ)
      ⟨0, 0, 10, 10, 0, 0, 0, 0⟩).2.y > deathHeight) := by
    norm_num [controllerMove, jumpFires, inputNeutral, inputVelX, ctrlSpeed,
      ctrlGravity, jumpForce, deathHeight]
  have h := controller_platform_carry
    (fun (_ : ℕ) => some (⟨30, 5, 40, 10, 0, 0, 0, 0⟩ : Body)) (1/10)
    ⟨false, true, false, some 0, 20⟩ ⟨0, 0, 10, 10, 0, 0, 0, 0⟩ 0
    ⟨30, 5, 40, 10, 0, 0, 0, 0⟩ rfl rfl rfl rfl (by norm_num) hsafe
  exact ⟨⟨rfl, rfl, by norm_num, hsafe⟩, by rw [h.1.1]; norm_num, h.1.2⟩

/-- Claim C6: when the player's y exceeds the death-height threshold
during a controller update, the update ends respawned: the dead flag is
false after the frame (never observable across frames), the position is
reset to the fixed spawn point `(100, 400)`, both velocity components are
zeroed and the platform attachment is cleared. The fall path invokes
`respawn()` directly; this equals the `die()`-then-respawn transition on
every state, since `die` and `respawn` are extensionally equal. -/
theorem controller_fall_respawn {π : Type} (lookup : π → Option Body)
    (inp : Input) (dt : ℚ) (c : CtrlState π) (b : Body)
    (hdead : c.isDead = false)
    (hfall : (controllerMove lookup inp dt c b).2.y > deathHeight) :
    (controllerUpdate lookup inp dt c b).1.isDead = false ∧
    (controllerUpdate lookup inp dt c b).1.attachedPlatform = none ∧
    (controllerUpdate lookup inp dt c b).2.x = 100 ∧
    (controllerUpdate lookup inp dt c b).2.y = 400 ∧
    (controllerUpdate lookup inp dt c b).2.velocityX = 0 ∧
    (controllerUpdate lookup inp dt c b).2.velocityY = 0 ∧
    (∀ (c2 : CtrlState π) (b2 : Body), die c2 b2 = respawn c2 b2) := by
  have heq : controllerUpdate lookup inp dt c b =
      respawn (controllerMove lookup inp dt c b).1
        (controllerMove lookup inp dt c b).2 := by
    simp [controllerUpdate, hdead, hfall]
  rw [heq]
  exact ⟨rfl, rfl, rfl, rfl, rfl, rfl, fun c2 b2 => rfl⟩

/-- Witness for C6: a non-dead player already at y = 1000 with zero
vertical velocity still exceeds the threshold after the frame's movement
and ends the update at the spawn point. -/
theorem controller_fall_respawn_witness :
    ((⟨false, false, false, none, 0⟩ : CtrlState ℕ).isDead = false ∧
     (controllerMove (fun (_ : ℕ) => none) inputNeutral (1/10)
       ⟨false, false, false, none, 0⟩ ⟨0, 1000, 10, 10, 0, 0, 0, 0⟩).2.y >
       deathHeight) ∧
    ((controllerUpdate (fun (_ : ℕ) => none) inputNeutral (1/10)
       ⟨false, false, false, none, 0⟩ ⟨0, 1000, 10, 10, 0, 0, 0, 0⟩).2.y = 400 ∧
     (controllerUpdate (fun (_ : ℕ) => none) inputNeutral (1/10)
       ⟨false, false, false, none, 0⟩ ⟨0, 1000, 10, 10, 0, 0, 0, 0⟩).1.isDead =
       false) := by
  have hfall : (controllerMove (fun (_ : ℕ) => none) inputNeutral (1/10)
      (⟨false, false, false, none, 0⟩ : CtrlState ℕ)
      ⟨0, 1000, 10, 10, 0, 0, 0, 0⟩).2.y > deathHeight := by
    norm_num [controllerMove, jumpFires, inputNeutral, inputVelX, ctrlSpeed,
      ctrlGravity, jumpForce, deathHeight]
  have h := controller_fall_respawn (fun (_ : ℕ) => none) inputNeutral (1/10)
    (⟨false, false, false, none, 0⟩ : CtrlState ℕ)
    ⟨0, 1000, 10, 10, 0, 0, 0, 0⟩ rfl hfall
  exact ⟨⟨rfl, hfall⟩, h.2.2.2.1, h.1⟩

/-- Claim C10: one `GameObject::update` of the player integrates velocity
into position twice — `BodyComponent::update` advances by the pre-frame
velocity, then `ControllerComponent::update` adds gravity and advances
again — so the frame's y change is
`velocityY_pre * dt + (velocityY_pre + gravity * dt) * dt`, and (when
unattached) the x change is `velocityX_pre * dt` plus the input-driven
velocity times `dt`. -/
theorem player_double_integration {π : Type} (lookup : π → Option Body)
    (inp : Input) (dt : ℚ) (c : CtrlState π) (b : Body)
    (hdead : c.isDead = false)
    (hnj : jumpFires inp c = false)
    (hsafe : ¬((controllerMove lookup inp dt c (bodyUpdate dt b)).2.y >
      deathHeight)) :
    (playerObjectUpdate lookup inp dt c b).2.y =
      b.y + b.velocityY * dt + (b.velocityY + ctrlGravity * dt) * dt ∧
    (playerObjectUpdate lookup inp dt c b).2.velocityY =
      b.velocityY + ctrlGravity * dt ∧
    (c.attachedPlatform = none →
      (playerObjectUpdate lookup inp dt c b).2.x =
        b.x + b.velocityX * dt + inputVelX inp * dt) := by
  have heq : playerObjectUpdate lookup inp dt c b =
      controllerMove lookup inp dt c (bodyUpdate dt b) := by
    simp [playerObjectUpdate, controllerUpdate, hdead, hsafe]
  have hy := controllerMove_y lookup inp dt c (bodyUpdate dt b) hnj
  refine ⟨?_, ?_, ?_⟩
  · rw [heq, hy.1]; simp [bodyUpdate]
  · rw [heq, hy.2]; simp [bodyUpdate]
  · intro hatt
    rw [heq, controllerMove_x_unattached lookup inp dt c (bodyUpdate dt b)
      (by simp [effAttached, hatt])]
    simp [bodyUpdate]

/-- Witness for C10: a falling player (velocityY 40, dt 1/10) ends the
frame at `y = 40*(1/10) + (40 + 90)*(1/10) = 17` above its start. -/
theorem player_double_integration_witness :
    ((⟨false, false, false, none, 0⟩ : CtrlState ℕ).isDead = false ∧
     jumpFires inputNeutral (⟨false, false, false, none, 0⟩ : CtrlState ℕ) =
       false) ∧
    (playerObjectUpdate (fun (_ : ℕ) => none) inputNeutral (1/10)
      ⟨false, false, false, none, 0⟩ ⟨0, 0, 10, 10, 0, 40, 0, 0⟩).2.y = 17 := by
  have hsafe : ¬((controllerMove (fun (_ : ℕ) => none) inputNeutral (1/10)
      (⟨false, false, false, none, 0⟩ : CtrlState ℕ)
      (bodyUpdate (1/10) ⟨0, 0, 10, 10, 0, 40, 0, 0⟩)).2.y > deathHeight) := by
    norm_num [controllerMove, bodyUpdate, jumpFires, inputNeutral, inputVelX,
      ctrlSpeed, ctrlGravity, jumpForce, deathHeight]
  have h := player_double_integration (fun (_ : ℕ) => none) inputNeutral (1/10)
    (⟨false, false, false, none, 0⟩ : CtrlState ℕ)
    ⟨0, 0, 10, 10, 0, 40, 0, 0⟩ rfl rfl hsafe
  refine ⟨⟨rfl, rfl⟩, ?_⟩
  rw [h.1]
  norm_num [ctrlGravity]

/-- One patrol step preserves the width, the overshoot-bounded interval,
and the direction invariants (moving right only below the right turning
point, moving left only above the left bound). -/
theorem patrol_step_inv (L R s dt : ℚ) (hd : 0 ≤ s * dt)
    (m : Bool) (b : Body)
    (hLR : L ≤ R - b.width)
    (hlb : L - s * dt ≤ b.x) (hub : b.x ≤ R - b.width + s * dt)
    (hmr : m = true → b.x ≤ R - b.width)
    (hml : m = false → L ≤ b.x) :
    (patrolUpdate L R s dt m b).2.width = b.width ∧
    L - s * dt ≤ (patrolUpdate L R s dt m b).2.x ∧
    (patrolUpdate L R s dt m b).2.x ≤ R - b.width + s * dt ∧
    ((patrolUpdate L R s dt m b).1 = true →
      (patrolUpdate L R s dt m b).2.x ≤ R - b.width) ∧
    ((patrolUpdate L R s dt m b).1 = false →
      L ≤ (patrolUpdate L R s dt m b).2.x) := by
  cases m
  · -- moving left: the step is -(s * dt)
    have hx := hml rfl
    have hxeq : (patrolUpdate L R s dt false b).2.x = b.x - s * dt := by
      simp [patrolUpdate]; ring
    have hweq : (patrolUpdate L R s dt false b).2.width = b.width := by
      simp [patrolUpdate]
    have hflag : (patrolUpdate L R s dt false b).1 =
        if b.x + -(s * dt) ≤ L then true else false := by
      simp [patrolUpdate]
    rw [hxeq, hweq, hflag]
    by_cases hA : b.x + -(s * dt) ≤ L
    · rw [if_pos hA]
      exact ⟨rfl, by linarith, by linarith, fun _ => by linarith,
        fun h => by simp at h⟩
    · rw [if_neg hA]
      exact ⟨rfl, by linarith, by linarith, fun h => by simp at h,
        fun _ => by linarith⟩
  · -- moving right: the step is s * dt
    have hx := hmr rfl
    have hxeq : (patrolUpdate L R s dt true b).2.x = b.x + s * dt := by
      simp [patrolUpdate]
    have hweq : (patrolUpdate L R s dt true b).2.width = b.width := by
      simp [patrolUpdate]
    have hflag : (patrolUpdate L R s dt true b).1 =
        if b.x + s * dt ≤ L then true
        else if b.x + s * dt ≥ R - b.width then false else true := by
      simp [patrolUpdate]
    rw [hxeq, hweq, hflag]
    by_cases hA : b.x + s * dt ≤ L
    · rw [if_pos hA]
      exact ⟨rfl, by linarith, by linarith, fun _ => by linarith,
        fun h => by simp at h⟩
    · rw [if_neg hA]
      by_cases hB : b.x + s * dt ≥ R - b.width
      · rw [if_pos hB]
        exact ⟨rfl, by linarith, by linarith, fun h => by simp at h,
          fun _ => by linarith⟩
      · rw [if_neg hB]
        exact ⟨rfl, by linarith, by linarith, fun _ => by linarith,
          fun h => by simp at h⟩

/-- Claim C5: starting anywhere in `[leftBound, rightBound - width]`, any
number of patrol updates with a fixed positive time step (and nonnegative
speed) keeps the body's x inside
`[leftBound - speed*dt, rightBound - width + speed*dt]`: overshoot past a
bound is at most one frame's displacement. -/
theorem patrol_bounds (L R s dt : ℚ) (m : Bool) (b : Body) (n : ℕ)
    (hdt : 0 < dt) (hs : 0 ≤ s)
    (hl : L ≤ b.x) (hr : b.x ≤ R - b.width) :
    L - s * dt ≤ (patrolIter L R s dt n (m, b)).2.x ∧
    (patrolIter L R s dt n (m, b)).2.x ≤ R - b.width + s * dt := by
  have hd : 0 ≤ s * dt := mul_nonneg hs hdt.le
  suffices h : (patrolIter L R s dt n (m, b)).2.width = b.width ∧
      L - s * dt ≤ (patrolIter L R s dt n (m, b)).2.x ∧
      (patrolIter L R s dt n (m, b)).2.x ≤ R - b.width + s * dt ∧
      ((patrolIter L R s dt n (m, b)).1 = true →
        (patrolIter L R s dt n (m, b)).2.x ≤ R - b.width) ∧
      ((patrolIter L R s dt n (m, b)).1 = false →
        L ≤ (patrolIter L R s dt n (m, b)).2.x) by
    exact ⟨h.2.1, h.2.2.1⟩
  induction n with
  | zero =>
    simp only [patrolIter, Function.iterate_zero_apply]
    exact ⟨trivial, by linarith, by linarith, fun _ => hr, fun _ => hl⟩
  | succ k ih =>
    have hstep : patrolIter L R s dt (k + 1) (m, b) =
        patrolUpdate L R s dt (patrolIter L R s dt k (m, b)).1
          (patrolIter L R s dt k (m, b)).2 := by
      unfold patrolIter
      rw [Function.iterate_succ_apply']
    obtain ⟨hw, h1, h2, h3, h4⟩ := ih
    have hLR2 : L ≤ R - (patrolIter L R s dt k (m, b)).2.width := by
      rw [hw]; exact le_trans hl hr
    have h2w : (patrolIter L R s dt k (m, b)).2.x ≤
        R - (patrolIter L R s dt k (m, b)).2.width + s * dt := by
      rw [hw]; exact h2
    have h3w : (patrolIter L R s dt k (m, b)).1 = true →
        (patrolIter L R s dt k (m, b)).2.x ≤
          R - (patrolIter L R s dt k (m, b)).2.width := by
      intro hm; rw [hw]; exact h3 hm
    have h5 := patrol_step_inv L R s dt hd (patrolIter L R s dt k (m, b)).1
      (patrolIter L R s dt k (m, b)).2 hLR2 h1 h2w h3w h4
    rw [hw] at h5
    rw [hstep]
    exact h5

/-- Witness for C5: patrol over `[0, 100]` with speed 10, `dt = 1`, a
width-20 body starting at x = 50; after 4 updates x stays within
`[-10, 90]`. -/
theorem patrol_bounds_witness :
    ((0 : ℚ) < 1 ∧ (0 : ℚ) ≤ 10 ∧ (0 : ℚ) ≤ (50 : ℚ) ∧
     (50 : ℚ) ≤ 100 - (20 : ℚ)) ∧
    ((0 : ℚ) - 10 * 1 ≤
       (patrolIter 0 100 10 1 4 (true, ⟨50, 0, 20, 5, 0, 0, 0, 0⟩)).2.x ∧
     (patrolIter 0 100 10 1 4 (true, ⟨50, 0, 20, 5, 0, 0, 0, 0⟩)).2.x ≤
       100 - 20 + 10 * 1) := by
  have h := patrol_bounds 0 100 10 1 true ⟨50, 0, 20, 5, 0, 0, 0, 0⟩ 4
    (by norm_num) (by norm_num) (by norm_num) (by norm_num)
  exact ⟨⟨by norm_num, by norm_num, by norm_num, by norm_num⟩, h.1, h.2⟩

/-- Once the bounce baseline is nonzero, the zero-sentinel guard never
fires again: the baseline is left unchanged by an update. -/
theorem bounceUpdate_baseY_fixed (a f d : ℝ) (s : BounceState)
    (h : s.baseY ≠ 0) : (bounceUpdate a f d s).baseY = s.baseY := by
  simp [bounceUpdate, h]

/-- The bounce state of a freshly spawned component on a body whose
initial y is exactly zero. -/
def bounceZeroStart : BounceState := ⟨0, 0, 0, 0, 0⟩

/-- Counterexample to C9's claim that a zero initial y makes the baseline
be recomputed every frame: with amplitude 1, frequency 1 and `dt = 1`,
after two updates the baseline holds `sin 1 ≠ 0`, so the capture guard
(`baseY == 0`) does not fire on the third frame — the baseline is only
recomputed while it is still zero. -/
theorem bounce_baseline_recapture_ce :
    ((bounceUpdate 1 1 1)^[2] bounceZeroStart).baseY ≠ 0 := by
  have hs : 0 < Real.sin 1 :=
    Real.sin_pos_of_pos_of_lt_pi one_pos (by linarith [Real.pi_gt_three])
  have h2 : ((bounceUpdate 1 1 1)^[2] bounceZeroStart).baseY = Real.sin 1 := by
    simp [Function.iterate_succ_apply', Function.iterate_zero_apply,
      bounceUpdate, bounceZeroStart]
  rw [h2]
  exact ne_of_gt hs

/-- Amended C9: for nonzero initial y the baseline is captured exactly
once on the first update and stays fixed on every later update; for a
body starting at y exactly zero the guard misfires differently than
claimed — the first capture is a no-op that re-arms the guard, and the
second update re-captures the baseline from the already-displaced
position `amplitude * sin(frequency * dt)`, after which (when that value
is nonzero, as in the counterexample) it stays fixed. -/
theorem bounce_baseline_behavior :
    (∀ (a f d : ℝ) (s : BounceState), s.baseY ≠ 0 →
      (bounceUpdate a f d s).baseY = s.baseY) ∧
    (∀ (a f d : ℝ) (s : BounceState), s.baseY = 0 → s.y ≠ 0 →
      ∀ n : ℕ, 1 ≤ n → ((bounceUpdate a f d)^[n] s).baseY = s.y) ∧
    (∀ (a f d : ℝ) (s : BounceState), s.baseY = 0 → s.y = 0 → s.time = 0 →
      ((bounceUpdate a f d)^[1] s).baseY = 0 ∧
      ((bounceUpdate a f d)^[2] s).baseY = a * Real.sin (f * d)) := by
  refine ⟨bounceUpdate_baseY_fixed, ?_, ?_⟩
  · intro a f d s h0 hy n hn
    obtain ⟨k, rfl⟩ := Nat.exists_eq_add_of_le hn
    induction k with
    | zero =>
      simp [bounceUpdate, h0]
    | succ j ihj =>
      have hj : 1 + (j + 1) = (1 + j) + 1 := by ring
      rw [hj, Function.iterate_succ_apply']
      have hne : ((bounceUpdate a f d)^[1 + j] s).baseY ≠ 0 := by
        rw [ihj (by omega)]; exact hy
      rw [bounceUpdate_baseY_fixed a f d _ hne]
      exact ihj (by omega)
  · intro a f d s h0 hy ht
    constructor
    · simp [bounceUpdate, h0, hy]
    · simp [Function.iterate_succ_apply', Function.iterate_zero_apply,
        bounceUpdate, h0, hy, ht]

/-- Witness for amended C9 at a nonzero start (y = 5): the baseline after
the first update equals 5. -/
theorem bounce_baseline_behavior_witness :
    ((5 : ℝ) ≠ 0 ∧ (⟨5, 0, 0, 0, 0⟩ : BounceState).baseY = 0) ∧
    ((bounceUpdate 1 1 1)^[1] ⟨5, 0, 0, 0, 0⟩).baseY = 5 :=
  ⟨⟨by norm_num, rfl⟩,
   bounce_baseline_behavior.2.1 1 1 1 ⟨5, 0, 0, 0, 0⟩ rfl (by norm_num) 1
     le_rfl⟩

/-- A concrete world: a static solid platform at (0, 14) and a player at
(0, 0) that this frame falls into the platform, so that collision
resolution moves the player after the camera has been recentered. -/
def worldZero : GameWorld :=
  { objs := [GObj.platform ⟨0, 14, 100, 10, 0, 0, 0, 14⟩,
             GObj.player ⟨false, false, false, none, 0⟩
               ⟨0, 0, 10, 10, 0, 0, 0, 0⟩],
    view := (0, 0) }

/-- Counterexample to C7's claim that the camera recenters on the player
after collision resolution: in `Game::update` the camera phase runs
BEFORE `checkCollisions`, so in `worldZero` the frame ends with the view
centered at (5, 14) — the player's pre-resolution center — while the
player's post-resolution center is (5, 9). -/
theorem camera_before_collisions_ce :
    (gameUpdate inputNeutral (1/10) worldZero).view = (5, 14) ∧
    (playerBodyOf (gameUpdate inputNeutral (1/10) worldZero).objs).map
      (fun b => (b.x + b.width / 2, b.y + b.height / 2)) = some (5, 9) ∧
    ((5 : ℚ), (14 : ℚ)) ≠ ((5 : ℚ), (9 : ℚ)) := by
  refine ⟨?_, ?_, by norm_num⟩ <;>
    norm_num [worldZero, gameUpdate, updateEntities, updateStep, objUpdate,
      bodyUpdate, controllerUpdate, controllerMove, jumpFires, inputNeutral,
      inputVelX, ctrlSpeed, ctrlGravity, jumpForce, deathHeight, lookupIdx,
      List.range_succ, List.get?, List.set, bodyOf, updateCamera,
      findPlayerIdx, isPlayerObj, checkCollisionsPhase, setOnPlatform,
      collideStep, playerBodyOf, solidBodyOf, checkCollision,
      resolvePlatformCollision, minOverlapX, minOverlapY, overlapLeft,
      overlapRight, overlapTop, overlapBottom, getVelocityX, List.findIdx?]

/-- Amended C7: within a frame all entity updates run to completion
before any collision detection or resolution, and the camera recenters on
the player after the entity updates but BEFORE collision detection and
resolution, so the view uses the post-motion, pre-resolution player
position; the draw traversal (`Game::render`) runs only after
`Game::update` returns. -/
theorem frame_phase_order (inp : Input) (dt : ℚ) (w : GameWorld) :
    (gameUpdate inp dt w).objs =
      checkCollisionsPhase (updateEntities inp dt w.objs) ∧
    (gameUpdate inp dt w).view =
      updateCamera (updateEntities inp dt w.objs) w.view ∧
    (∀ (pIdx : ℕ) (c : CtrlState ℕ) (b : Body),
      findPlayerIdx (updateEntities inp dt w.objs) = some pIdx →
      (updateEntities inp dt w.objs).get? pIdx = some (.player c b) →
      (gameUpdate inp dt w).view = (b.x + b.width / 2, b.y + b.height / 2)) := by
  refine ⟨rfl, rfl, ?_⟩
  intro pIdx c b h1 h2
  show updateCamera (updateEntities inp dt w.objs) w.view = _
  simp only [updateCamera, h1, h2]

/-- Witness for amended C7 on `worldZero`: the player is at index 1 after
the update phase, at y = 9, and the frame's view is its pre-resolution
center (5, 14). -/
theorem frame_phase_order_witness :
    (findPlayerIdx (updateEntities inputNeutral (1/10) worldZero.objs) =
       some 1 ∧
     (updateEntities inputNeutral (1/10) worldZero.objs).get? 1 =
       some (GObj.player ⟨false, false, false, none, 0⟩
         ⟨0, 9, 10, 10, 0, 90, 0, 0⟩)) ∧
    (gameUpdate inputNeutral (1/10) worldZero).view = (5, 14) := by
  have he : updateEntities inputNeutral (1/10) worldZero.objs =
      [GObj.platform ⟨0, 14, 100, 10, 0, 0, 0, 14⟩,
       GObj.player ⟨false, false, false, none, 0⟩
         ⟨0, 9, 10, 10, 0, 90, 0, 0⟩] := by
    norm_num [worldZero, updateEntities, updateStep, objUpdate, bodyUpdate,
      controllerUpdate, controllerMove, jumpFires, inputNeutral, inputVelX,
      ctrlSpeed, ctrlGravity, jumpForce, deathHeight, lookupIdx,
      List.range_succ, List.get?, List.set, bodyOf]
  have h1 : findPlayerIdx (updateEntities inputNeutral (1/10) worldZero.objs) =
      some 1 := by
    rw [he]; norm_num [findPlayerIdx, isPlayerObj, List.findIdx?]
  have h2 : (updateEntities inputNeutral (1/10) worldZero.objs).get? 1 =
      some (GObj.player ⟨false, false, false, none, 0⟩
        ⟨0, 9, 10, 10, 0, 90, 0, 0⟩) := by
    rw [he]; rfl
  have h := (frame_phase_order inputNeutral (1/10) worldZero).2.2 1
    ⟨false, false, false, none, 0⟩ ⟨0, 9, 10, 10, 0, 90, 0, 0⟩ h1 h2
  refine ⟨⟨h1, h2⟩, ?_⟩
  rw [h]
  norm_num
